import Mathlib

/-!
Shallow embedding of `anvis-tea-backend/server.js`, a minimal order-intake
backend: three HTTP handlers (create order, list orders, startup) over a
dual order store (a document store when `mongoose.connection.readyState === 1`,
an in-process `memoryOrders` list otherwise) with a fire-and-forget email
notification.  Request handling is modelled as pure state transformers over
an explicit `ServerState`; the ambient effects a handler consumes (the clock,
whether the document-store write succeeds, the id the document store would
assign, whether the email send succeeds) are passed in as a `PostEnv` oracle.
-/

namespace AnvisTea

/-- A cart entry of the request body / stored order (`server.js` lines 30-37:
`cart: [{ id: String, name: String, price: Number, qty: Number }]`). -/
structure CartLine where
  id : String
  name : String
  price : Int
  qty : Int
deriving DecidableEq

/-- An order record as stored by either backend (`server.js` lines 26-39
schema and lines 127-134 in-memory object): `_id`, the four submitted
fields and a `createdAt` timestamp (`Date` modelled as a natural number of
milliseconds). -/
structure StoredOrder where
  _id : Nat
  name : String
  phone : String
  address : String
  cart : List CartLine
  createdAt : Nat
deriving DecidableEq

/-- The relevant part of a JSON request body for `POST /api/orders`
(`server.js` line 114 destructures `name, phone, address, cart`).
`none` in a string field means the field is absent (or not a string);
`cart = none` means the `cart` field is absent or not an array.
`createdAt` is carried so that we can observe that the handler ignores it. -/
structure ReqBody where
  name : Option String
  phone : Option String
  address : Option String
  cart : Option (List CartLine)
  createdAt : Option Nat
deriving DecidableEq

/-- JS truthiness of an optional string field: `!x` is true exactly when the
field is absent or the empty string (`server.js` line 116 `!name` etc.). -/
def truthy : Option String → Bool
  | none => false
  | some s => !(s == "")

/-- The mutable state the handlers read and write: the document-store
connection state (`mongoose.connection.readyState`, 1 = connected), the
document-store collection contents, and the in-memory fallback list
(`server.js` line 44 `const memoryOrders = []`). -/
structure ServerState where
  readyState : Nat
  mongoOrders : List StoredOrder
  memoryOrders : List StoredOrder
deriving DecidableEq

/-- Ambient effects consumed by one `POST /api/orders` request: the current
time (`new Date()` / the schema default `Date.now`), whether the document
store write (`Order.create`) succeeds, the store-native id it would assign,
and whether the email transport (`transporter.sendMail`) succeeds. -/
structure PostEnv where
  now : Nat
  mongoWriteOk : Bool
  mongoId : Nat
  emailOk : Bool
deriving DecidableEq

/-- The HTTP response of `POST /api/orders`: status code, the `message`
field of the JSON body, and the `orderId` field (`none` = absent). -/
structure PostResponse where
  status : Nat
  message : String
  orderId : Option Nat
deriving DecidableEq

/-- Result of one `POST /api/orders` request: the response, the state after
the request, and the outcome of the email dispatch (`none` when no email was
dispatched, `some b` when `sendOrderEmail` was dispatched and succeeded iff
`b`; `server.js` lines 139-141 discard this outcome after logging). -/
structure PostResult where
  resp : PostResponse
  state : ServerState
  emailOutcome : Option Bool
deriving DecidableEq

/-- The `POST /api/orders` handler (`server.js` lines 112-148).
Line 116: reject with 400 `"Invalid order data"` unless `name`, `phone`,
`address` are truthy and `cart` is an array of length ≥ 1 (the supplied
`createdAt`, like every other extra body field, is never read).
Line 122: if `mongoose.connection.readyState === 1` write through
`Order.create` (which fails when the connection was lost, caught at line
144 into a 500); otherwise append to `memoryOrders` with
`_id = memoryOrders.length + 1` and `createdAt = new Date()`.
Lines 139-141: dispatch `sendOrderEmail` without awaiting it, any failure
only logged.  Line 143: respond 200 `{message: "Order received", orderId}`. -/
def postApiOrders (s : ServerState) (b : ReqBody) (env : PostEnv) : PostResult :=
  if !truthy b.name || !truthy b.phone || !truthy b.address
      || b.cart.isNone || (b.cart.getD []).length == 0 then
    { resp := { status := 400, message := "Invalid order data", orderId := none },
      state := s,
      emailOutcome := none }
  else if s.readyState == 1 then
    if env.mongoWriteOk then
      let savedOrder : StoredOrder :=
        { _id := env.mongoId,
          name := b.name.getD "", phone := b.phone.getD "", address := b.address.getD "",
          cart := b.cart.getD [],
          createdAt := env.now }
      { resp := { status := 200, message := "Order received", orderId := some savedOrder._id },
        state := { s with mongoOrders := s.mongoOrders ++ [savedOrder] },
        emailOutcome := some env.emailOk }
    else
      { resp := { status := 500, message := "Server error while creating order", orderId := none },
        state := s,
        emailOutcome := none }
  else
    let savedOrder : StoredOrder :=
      { _id := s.memoryOrders.length + 1,
        name := b.name.getD "", phone := b.phone.getD "", address := b.address.getD "",
        cart := b.cart.getD [],
        createdAt := env.now }
    { resp := { status := 200, message := "Order received", orderId := some savedOrder._id },
      state := { s with memoryOrders := s.memoryOrders ++ [savedOrder] },
      emailOutcome := some env.emailOk }

/-- Sorting by `createdAt` descending, as both listing branches do
(`server.js` line 154 `Order.find().sort({ createdAt: -1 })` and line 157
`[...memoryOrders].sort((a, b) => b.createdAt - a.createdAt)`).
`Array.prototype.sort` is a stable sort keyed by the comparator, so it is
modelled by the stable `List.insertionSort` under the comparator's order. -/
def sortByCreatedAtDesc (l : List StoredOrder) : List StoredOrder :=
  List.insertionSort (fun a b => b.createdAt ≤ a.createdAt) l

/-- The JSON body of a `GET /api/orders` response: either the order list or
the error message object. -/
inductive GetBody where
  | orders (l : List StoredOrder)
  | failure (message : String)
deriving DecidableEq

/-- The HTTP response of `GET /api/orders`. -/
structure GetResult where
  status : Nat
  body : GetBody
deriving DecidableEq

/-- The `GET /api/orders` handler (`server.js` lines 151-163): when
`readyState === 1`, read the document store sorted by `createdAt`
descending (a read failure is caught into a 500); otherwise sort a copy of
`memoryOrders`.  The handler never mutates the state, which the returned
state component makes explicit. -/
def getApiOrders (s : ServerState) (mongoReadOk : Bool) : GetResult × ServerState :=
  if s.readyState == 1 then
    if mongoReadOk then
      ({ status := 200, body := GetBody.orders (sortByCreatedAtDesc s.mongoOrders) }, s)
    else
      ({ status := 500, body := GetBody.failure "Server error while fetching orders" }, s)
  else
    ({ status := 200, body := GetBody.orders (sortByCreatedAtDesc s.memoryOrders) }, s)

/-- The store a request reads/writes, as selected by the per-request
`readyState` check (`server.js` lines 122 and 153). -/
def selectedOrders (s : ServerState) : List StoredOrder :=
  if s.readyState == 1 then s.mongoOrders else s.memoryOrders

/-- Processing a sequence of `POST /api/orders` requests in order, threading
the server state. -/
def processPosts (s : ServerState) : List (ReqBody × PostEnv) → ServerState
  | [] => s
  | (b, env) :: rest => processPosts (postApiOrders s b env).state rest

/-- Character-list version of `String.prototype.includes`: does `hay` begin
with `needle`? -/
def charsBeginWith : List Char → List Char → Bool
  | [], _ => true
  | _ :: _, [] => false
  | a :: as, b :: bs => a == b && charsBeginWith as bs

/-- Does `hay` contain `needle` as a contiguous run? -/
def charsInclude (needle : List Char) : List Char → Bool
  | [] => charsBeginWith needle []
  | h :: t => charsBeginWith needle (h :: t) || charsInclude needle t

/-- `hay.includes(needle)` of JS strings (`server.js` line 78
`process.env.MONGO_URL.includes("127.0.0.1")`). -/
def stringIncludes (needle hay : String) : Bool :=
  charsInclude needle.data hay.data

/-- Observable outcome of the `start` function: whether the process
terminated, whether the HTTP server is listening, and whether the process
runs on the in-memory store (no document-store connection established). -/
structure StartOutcome where
  terminated : Bool
  listening : Bool
  usesMemory : Bool
deriving DecidableEq

/-- The `start` function (`server.js` lines 76-95): when `MONGO_URL` is
absent/falsy or contains `"127.0.0.1"`, skip connecting and serve with the
in-memory store; otherwise attempt `mongoose.connect`, and on failure catch
the error and still start listening with the in-memory store.  No branch
terminates the process. -/
def start (mongoUrlEnv : Option String) (connectOk : Bool) : StartOutcome :=
  if !truthy mongoUrlEnv || stringIncludes "127.0.0.1" (mongoUrlEnv.getD "") then
    { terminated := false, listening := true, usesMemory := true }
  else if connectOk then
    { terminated := false, listening := true, usesMemory := false }
  else
    { terminated := false, listening := true, usesMemory := true }

/-- The cart line of the spec's concrete scenario. -/
def exLine : CartLine :=
  { id := "1", name := "Himalayan Dawn Green", price := 650, qty := 2 }

/-- The valid request body of the spec's concrete scenario. -/
def exBody : ReqBody :=
  { name := some "A", phone := some "123", address := some "X",
    cart := some [exLine], createdAt := none }

/-- A valid request body that also supplies a `createdAt` of its own. -/
def exBodyWithCreatedAt : ReqBody :=
  { exBody with createdAt := some 999 }

/-- An invalid request body: all contact fields present but an empty cart. -/
def exBadBody : ReqBody :=
  { name := some "A", phone := some "123", address := some "X",
    cart := some [], createdAt := none }

/-- A benign request environment: clock at 5, all effects succeed. -/
def exEnv : PostEnv :=
  { now := 5, mongoWriteOk := true, mongoId := 7, emailOk := true }

/-- A request environment in which the document-store write fails. -/
def exFailEnv : PostEnv :=
  { now := 5, mongoWriteOk := false, mongoId := 7, emailOk := true }

/-- A second valid request body. -/
def exBody2 : ReqBody :=
  { name := some "B", phone := some "456", address := some "Y",
    cart := some [exLine], createdAt := none }

/-- A second request environment, later clock, failing email transport. -/
def exEnv2 : PostEnv :=
  { now := 6, mongoWriteOk := true, mongoId := 8, emailOk := false }

/-- Three stored orders with createdAt 1 < 2 < 3. -/
def exOrder1 : StoredOrder :=
  { _id := 1, name := "n1", phone := "p1", address := "a1", cart := [exLine],
    createdAt := 1 }

/-- Second of the three stored orders. -/
def exOrder2 : StoredOrder :=
  { _id := 2, name := "n2", phone := "p2", address := "a2", cart := [exLine],
    createdAt := 2 }

/-- Third of the three stored orders. -/
def exOrder3 : StoredOrder :=
  { _id := 3, name := "n3", phone := "p3", address := "a3", cart := [exLine],
    createdAt := 3 }

/-- An in-memory server state holding the three orders in creation order. -/
def exListState : ServerState :=
  { readyState := 0, mongoOrders := [], memoryOrders := [exOrder1, exOrder2, exOrder3] }

/-- Fresh state on the in-memory path (document store not connected). -/
def initMemState : ServerState :=
  { readyState := 0, mongoOrders := [], memoryOrders := [] }

/-- Fresh state on the document-store path (connection established). -/
def initMongoState : ServerState :=
  { readyState := 1, mongoOrders := [], memoryOrders := [] }

/-- The boolean rejection test of `server.js` line 116 holds exactly when one
of the contact fields is absent/falsy, or `cart` is not an array, or `cart`
is the empty array. -/
theorem invalid_cond_iff (b : ReqBody) :
    (!truthy b.name || !truthy b.phone || !truthy b.address
      || b.cart.isNone || (b.cart.getD []).length == 0) = true ↔
    (b.name = none ∨ b.name = some "" ∨ b.phone = none ∨ b.phone = some "" ∨
      b.address = none ∨ b.address = some "" ∨ b.cart = none ∨ b.cart = some []) := by
  rcases b with ⟨n, p, a, c, t⟩
  cases n <;> cases p <;> cases a <;> cases c <;>
    simp [truthy, List.length_eq_zero, or_assoc]

/-- C1: `POST /api/orders` answers 400 exactly when `name`, `phone` or
`address` is absent/falsy, or `cart` is not an array, or `cart` is empty;
and a 400 response performs no side effect: the state is unchanged and no
email notification is dispatched. -/
theorem c1_reject_400_iff_invalid_and_no_side_effects
    (s : ServerState) (b : ReqBody) (env : PostEnv) :
    ((postApiOrders s b env).resp.status = 400 ↔
      (b.name = none ∨ b.name = some "" ∨ b.phone = none ∨ b.phone = some "" ∨
        b.address = none ∨ b.address = some "" ∨ b.cart = none ∨ b.cart = some [])) ∧
    ((postApiOrders s b env).resp.status = 400 →
      (postApiOrders s b env).state = s ∧ (postApiOrders s b env).emailOutcome = none) := by
  by_cases hc : (!truthy b.name || !truthy b.phone || !truthy b.address
      || b.cart.isNone || (b.cart.getD []).length == 0) = true
  · rw [postApiOrders, if_pos hc]
    exact ⟨by simpa using (invalid_cond_iff b).mp hc, fun _ => ⟨rfl, rfl⟩⟩
  · have hnot := (not_iff_not.mpr (invalid_cond_iff b)).mp hc
    rw [postApiOrders, if_neg hc]
    constructor
    · split
      · split <;> simp [hnot]
      · simp [hnot]
    · split
      · split <;> simp
      · simp

/-- C1 witness: an order with an empty cart is rejected with 400, the state
is untouched, and no notification is dispatched. -/
theorem c1_witness :
    (postApiOrders initMemState exBadBody exEnv).resp.status = 400 ∧
    (postApiOrders initMemState exBadBody exEnv).state = initMemState ∧
    (postApiOrders initMemState exBadBody exEnv).emailOutcome = none := by
  have h := c1_reject_400_iff_invalid_and_no_side_effects initMemState exBadBody exEnv
  have h400 : (postApiOrders initMemState exBadBody exEnv).resp.status = 400 :=
    h.1.mpr (by decide)
  exact ⟨h400, (h.2 h400).1, (h.2 h400).2⟩

/-- Appending an order strictly fresher than everything in the list and
sorting puts it at the head, with the rest sorted as before. -/
theorem sortByCreatedAtDesc_append_fresh (l : List StoredOrder) (o : StoredOrder)
    (h : ∀ x ∈ l, x.createdAt < o.createdAt) :
    sortByCreatedAtDesc (l ++ [o]) = o :: sortByCreatedAtDesc l := by
  induction l with
  | nil => rfl
  | cons x xs ih =>
    have hx : x.createdAt < o.createdAt := h x (List.mem_cons_self x xs)
    have ih' := ih fun y hy => h y (List.mem_cons_of_mem x hy)
    simp only [sortByCreatedAtDesc, List.cons_append, List.append_eq,
      List.insertionSort] at ih' ⊢
    rw [ih', List.orderedInsert, if_neg (by omega)]

/-- A `POST /api/orders` request leaves `readyState` unchanged. -/
theorem postApiOrders_readyState (s : ServerState) (b : ReqBody) (env : PostEnv) :
    (postApiOrders s b env).state.readyState = s.readyState := by
  rw [postApiOrders]
  split
  · rfl
  · split
    · split <;> rfl
    · rfl

/-- A truthy optional string field carries a string. -/
theorem truthy_exists_some {o : Option String} (h : truthy o = true) :
    ∃ s, o = some s := by
  cases o with
  | none => simp [truthy] at h
  | some s => exact ⟨s, rfl⟩

/-- The rejection test of line 116 evaluates to `false` on a valid body. -/
theorem valid_cond_eq_false (b : ReqBody) (c : List CartLine)
    (hname : truthy b.name = true) (hphone : truthy b.phone = true)
    (haddr : truthy b.address = true) (hcart : b.cart = some c) (hlen : 1 ≤ c.length) :
    (!truthy b.name || !truthy b.phone || !truthy b.address
      || b.cart.isNone || (b.cart.getD []).length == 0) = false := by
  have hlen0 : (c.length == 0) = false := by
    simp only [beq_eq_false_iff_ne, ne_eq]
    omega
  simp [hname, hphone, haddr, hcart, hlen0]

/-- Valid body, document store connected, write succeeds: the handler
appends the submitted order (with the store-assigned id and `createdAt` set
to the current time) to the document store and answers 200. -/
theorem postApiOrders_mongo_ok (s : ServerState) (b : ReqBody) (env : PostEnv)
    (hc : (!truthy b.name || !truthy b.phone || !truthy b.address
      || b.cart.isNone || (b.cart.getD []).length == 0) = false)
    (hready : s.readyState = 1) (hok : env.mongoWriteOk = true) :
    postApiOrders s b env =
      { resp := { status := 200, message := "Order received", orderId := some env.mongoId },
        state := { s with mongoOrders := s.mongoOrders ++
          [{ _id := env.mongoId, name := b.name.getD "", phone := b.phone.getD "",
             address := b.address.getD "", cart := b.cart.getD [], createdAt := env.now }] },
        emailOutcome := some env.emailOk } := by
  rw [postApiOrders, if_neg (by simp [hc]), if_pos (by simpa using hready), if_pos hok]

/-- Valid body, document store connected, write fails: the handler answers
500 and leaves the state unchanged, dispatching no email. -/
theorem postApiOrders_mongo_fail (s : ServerState) (b : ReqBody) (env : PostEnv)
    (hc : (!truthy b.name || !truthy b.phone || !truthy b.address
      || b.cart.isNone || (b.cart.getD []).length == 0) = false)
    (hready : s.readyState = 1) (hok : env.mongoWriteOk = false) :
    postApiOrders s b env =
      { resp := { status := 500, message := "Server error while creating order", orderId := none },
        state := s,
        emailOutcome := none } := by
  rw [postApiOrders, if_neg (by simp [hc]), if_pos (by simpa using hready),
    if_neg (by simp [hok])]

/-- Valid body, document store not connected: the handler appends the
submitted order to `memoryOrders` with `_id = memoryOrders.length + 1` and
`createdAt` the current time, and answers 200. -/
theorem postApiOrders_memory (s : ServerState) (b : ReqBody) (env : PostEnv)
    (hc : (!truthy b.name || !truthy b.phone || !truthy b.address
      || b.cart.isNone || (b.cart.getD []).length == 0) = false)
    (hready : s.readyState ≠ 1) :
    postApiOrders s b env =
      { resp := { status := 200, message := "Order received", orderId := some (s.memoryOrders.length + 1) },
        state := { s with memoryOrders := s.memoryOrders ++
          [{ _id := s.memoryOrders.length + 1, name := b.name.getD "",
             phone := b.phone.getD "", address := b.address.getD "",
             cart := b.cart.getD [], createdAt := env.now }] },
        emailOutcome := some env.emailOk } := by
  rw [postApiOrders, if_neg (by simp [hc]), if_neg (by simpa using hready)]

/-- When the read side of the selected store is reachable,
`GET /api/orders` answers 200 with the selected store sorted by `createdAt`
descending, and does not change the state. -/
theorem getApiOrders_ok (s : ServerState) (ok : Bool)
    (hok : s.readyState = 1 → ok = true) :
    getApiOrders s ok =
      ({ status := 200, body := GetBody.orders (sortByCreatedAtDesc (selectedOrders s)) },
        s) := by
  by_cases h : s.readyState == 1
  · rw [getApiOrders, selectedOrders, if_pos h, if_pos h, if_pos (hok (by simpa using h))]
  · rw [getApiOrders, selectedOrders, if_neg h, if_neg h]

/-- C2: a valid submission (truthy `name`, `phone`, `address`, `cart` an
array of length ≥ 1) processed while the selected store accepts the write
answers 200 with `message = "Order received"` and a non-null `orderId`, and
a subsequent `GET /api/orders` (when the clock is strictly ahead of every
previously stored order) lists a matching order first. -/
theorem c2_valid_post_listed_most_recent
    (s : ServerState) (b : ReqBody) (env : PostEnv) (c : List CartLine) (mongoReadOk : Bool)
    (hname : truthy b.name = true) (hphone : truthy b.phone = true)
    (haddr : truthy b.address = true)
    (hcart : b.cart = some c) (hlen : 1 ≤ c.length)
    (hwrite : s.readyState = 1 → env.mongoWriteOk = true)
    (hread : s.readyState = 1 → mongoReadOk = true)
    (hfresh : ∀ x ∈ selectedOrders s, x.createdAt < env.now) :
    (postApiOrders s b env).resp.status = 200 ∧
    (postApiOrders s b env).resp.message = "Order received" ∧
    (postApiOrders s b env).resp.orderId ≠ none ∧
    ∃ o rest,
      (getApiOrders (postApiOrders s b env).state mongoReadOk).1.body
        = GetBody.orders (o :: rest) ∧
      b.name = some o.name ∧ b.phone = some o.phone ∧ b.address = some o.address ∧
      o.cart = c := by
  have hc := valid_cond_eq_false b c hname hphone haddr hcart hlen
  obtain ⟨n, hn⟩ := truthy_exists_some hname
  obtain ⟨p, hp⟩ := truthy_exists_some hphone
  obtain ⟨a, ha⟩ := truthy_exists_some haddr
  by_cases hready : s.readyState = 1
  · have hsel : selectedOrders s = s.mongoOrders := by
      simp [selectedOrders, hready]
    rw [postApiOrders_mongo_ok s b env hc hready (hwrite hready)]
    refine ⟨rfl, rfl, by simp, ?_⟩
    rw [getApiOrders_ok _ _ (fun _ => hread hready)]
    have hsel' : selectedOrders
        { s with mongoOrders := s.mongoOrders ++
          [{ _id := env.mongoId, name := b.name.getD "", phone := b.phone.getD "",
             address := b.address.getD "", cart := b.cart.getD [],
             createdAt := env.now }] }
        = s.mongoOrders ++
          [{ _id := env.mongoId, name := b.name.getD "", phone := b.phone.getD "",
             address := b.address.getD "", cart := b.cart.getD [],
             createdAt := env.now }] := by
      simp [selectedOrders, hready]
    rw [hsel', sortByCreatedAtDesc_append_fresh _ _ (by rw [← hsel]; exact hfresh)]
    exact ⟨_, _, rfl, by simp [hn], by simp [hp], by simp [ha], by simp [hcart]⟩
  · have hsel : selectedOrders s = s.memoryOrders := by
      simp [selectedOrders, hready]
    rw [postApiOrders_memory s b env hc hready]
    refine ⟨rfl, rfl, by simp, ?_⟩
    rw [getApiOrders_ok]
    case neg.hok => exact fun h => absurd h hready
    have hsel' : selectedOrders
        { s with memoryOrders := s.memoryOrders ++
          [{ _id := s.memoryOrders.length + 1, name := b.name.getD "",
             phone := b.phone.getD "", address := b.address.getD "",
             cart := b.cart.getD [], createdAt := env.now }] }
        = s.memoryOrders ++
          [{ _id := s.memoryOrders.length + 1, name := b.name.getD "",
             phone := b.phone.getD "", address := b.address.getD "",
             cart := b.cart.getD [], createdAt := env.now }] := by
      simp [selectedOrders, hready]
    rw [hsel', sortByCreatedAtDesc_append_fresh _ _ (by rw [← hsel]; exact hfresh)]
    exact ⟨_, _, rfl, by simp [hn], by simp [hp], by simp [ha], by simp [hcart]⟩

/-- C2 witness: the spec's concrete scenario on a fresh in-memory server
answers 200 with a non-null order id and the order is listed first. -/
theorem c2_witness :
    (postApiOrders initMemState exBody exEnv).resp.status = 200 ∧
    (postApiOrders initMemState exBody exEnv).resp.message = "Order received" ∧
    (postApiOrders initMemState exBody exEnv).resp.orderId ≠ none ∧
    ∃ o rest,
      (getApiOrders (postApiOrders initMemState exBody exEnv).state true).1.body
        = GetBody.orders (o :: rest) ∧
      exBody.name = some o.name ∧ exBody.phone = some o.phone ∧
      exBody.address = some o.address ∧ o.cart = [exLine] :=
  c2_valid_post_listed_most_recent initMemState exBody exEnv [exLine] true
    (by decide) (by decide) (by decide) rfl (by decide)
    (by decide) (fun _ => rfl) (by decide)

/-- C3: when the document store is selected and its write fails, the
response is 500, the state is unchanged (in particular no subset of the
order's cart lines is persisted anywhere), and a subsequent
`GET /api/orders` returns exactly what it returned before the failed
request, so the failed order never appears in a listing. -/
theorem c3_store_write_failure_no_partial_write
    (s : ServerState) (b : ReqBody) (env : PostEnv) (c : List CartLine) (mongoReadOk : Bool)
    (hname : truthy b.name = true) (hphone : truthy b.phone = true)
    (haddr : truthy b.address = true)
    (hcart : b.cart = some c) (hlen : 1 ≤ c.length)
    (hready : s.readyState = 1) (hfail : env.mongoWriteOk = false) :
    (postApiOrders s b env).resp.status = 500 ∧
    (postApiOrders s b env).state = s ∧
    getApiOrders (postApiOrders s b env).state mongoReadOk = getApiOrders s mongoReadOk := by
  have hc := valid_cond_eq_false b c hname hphone haddr hcart hlen
  rw [postApiOrders_mongo_fail s b env hc hready hfail]
  exact ⟨rfl, rfl, rfl⟩

/-- C3 witness: the concrete valid order posted while the connected
document store rejects the write yields 500 and leaves everything as it
was. -/
theorem c3_witness :
    (postApiOrders initMongoState exBody exFailEnv).resp.status = 500 ∧
    (postApiOrders initMongoState exBody exFailEnv).state = initMongoState ∧
    getApiOrders (postApiOrders initMongoState exBody exFailEnv).state true
      = getApiOrders initMongoState true :=
  c3_store_write_failure_no_partial_write initMongoState exBody exFailEnv [exLine] true
    (by decide) (by decide) (by decide) rfl (by decide) rfl rfl

/-- The descending sort really is sorted by `createdAt` descending. -/
theorem sortByCreatedAtDesc_sorted (l : List StoredOrder) :
    (sortByCreatedAtDesc l).Sorted (fun a b => b.createdAt ≤ a.createdAt) := by
  haveI : IsTotal StoredOrder (fun a b => b.createdAt ≤ a.createdAt) :=
    ⟨fun a b => Nat.le_total b.createdAt a.createdAt⟩
  haveI : IsTrans StoredOrder (fun a b => b.createdAt ≤ a.createdAt) :=
    ⟨fun _ _ _ hab hbc => Nat.le_trans hbc hab⟩
  exact List.sorted_insertionSort _ l

/-- The descending sort is a permutation of the stored orders. -/
theorem sortByCreatedAtDesc_perm (l : List StoredOrder) :
    (sortByCreatedAtDesc l).Perm l :=
  List.perm_insertionSort _ l

/-- Sorting three orders with strictly increasing `createdAt` reverses
them. -/
theorem sortByCreatedAtDesc_three (o1 o2 o3 : StoredOrder)
    (h12 : o1.createdAt < o2.createdAt) (h23 : o2.createdAt < o3.createdAt) :
    sortByCreatedAtDesc [o1, o2, o3] = [o3, o2, o1] := by
  have h1 : ¬ (o3.createdAt ≤ o2.createdAt) := by omega
  have h2 : ¬ (o3.createdAt ≤ o1.createdAt) := by omega
  have h3 : ¬ (o2.createdAt ≤ o1.createdAt) := by omega
  simp [sortByCreatedAtDesc, List.insertionSort, List.orderedInsert, h1, h2, h3]

/-- C4: `GET /api/orders` (with the selected store readable) answers 200
with the selected store's orders sorted by `createdAt` descending — the
body is the sorted permutation of the stored orders — and in particular
three stored orders created at t1 < t2 < t3 are listed as [t3, t2, t1]. -/
theorem c4_get_orders_sorted_desc
    (s : ServerState) (mongoReadOk : Bool) (o1 o2 o3 : StoredOrder)
    (hok : s.readyState = 1 → mongoReadOk = true) :
    (getApiOrders s mongoReadOk).1
      = { status := 200, body := GetBody.orders (sortByCreatedAtDesc (selectedOrders s)) } ∧
    (sortByCreatedAtDesc (selectedOrders s)).Sorted (fun a b => b.createdAt ≤ a.createdAt) ∧
    (sortByCreatedAtDesc (selectedOrders s)).Perm (selectedOrders s) ∧
    (selectedOrders s = [o1, o2, o3] → o1.createdAt < o2.createdAt →
      o2.createdAt < o3.createdAt →
      (getApiOrders s mongoReadOk).1.body = GetBody.orders [o3, o2, o1]) := by
  refine ⟨by rw [getApiOrders_ok s mongoReadOk hok], sortByCreatedAtDesc_sorted _,
    sortByCreatedAtDesc_perm _, ?_⟩
  intro hsel h12 h23
  rw [getApiOrders_ok s mongoReadOk hok]
  show GetBody.orders (sortByCreatedAtDesc (selectedOrders s)) = _
  rw [hsel, sortByCreatedAtDesc_three o1 o2 o3 h12 h23]

/-- C4 witness: three concrete orders created at 1 < 2 < 3 are listed
newest first. -/
theorem c4_witness :
    (getApiOrders exListState true).1
      = { status := 200,
          body := GetBody.orders (sortByCreatedAtDesc (selectedOrders exListState)) } ∧
    (sortByCreatedAtDesc (selectedOrders exListState)).Sorted
      (fun a b => b.createdAt ≤ a.createdAt) ∧
    (sortByCreatedAtDesc (selectedOrders exListState)).Perm (selectedOrders exListState) ∧
    (getApiOrders exListState true).1.body
      = GetBody.orders [exOrder3, exOrder2, exOrder1] := by
  have h := c4_get_orders_sorted_desc exListState true exOrder1 exOrder2 exOrder3
    (by decide)
  exact ⟨h.1, h.2.1, h.2.2.1, h.2.2.2 rfl (by decide) (by decide)⟩

/-- One `POST /api/orders` step on the in-memory path preserves the
invariant that the stored ids read 1, 2, ..., length in insertion order. -/
theorem postApiOrders_ids_step (s : ServerState) (b : ReqBody) (env : PostEnv)
    (hready : s.readyState ≠ 1)
    (hinv : s.memoryOrders.map (fun o => o._id) = List.range' 1 s.memoryOrders.length) :
    (postApiOrders s b env).state.memoryOrders.map (fun o => o._id)
      = List.range' 1 (postApiOrders s b env).state.memoryOrders.length := by
  rw [postApiOrders]
  split
  · exact hinv
  · rw [if_neg (by simpa using hready)]
    show (s.memoryOrders ++
        [({ _id := s.memoryOrders.length + 1, name := b.name.getD "",
            phone := b.phone.getD "", address := b.address.getD "",
            cart := b.cart.getD [], createdAt := env.now } : StoredOrder)]).map
          (fun o => o._id)
      = List.range' 1 (s.memoryOrders ++
        [({ _id := s.memoryOrders.length + 1, name := b.name.getD "",
            phone := b.phone.getD "", address := b.address.getD "",
            cart := b.cart.getD [], createdAt := env.now } : StoredOrder)]).length
    rw [List.map_append, List.length_append, hinv]
    simp [List.range'_1_concat, Nat.add_comm]

/-- C5: starting from an empty in-memory store (and the document store
not connected), after any sequence of `POST /api/orders` requests the ids
stored in `memoryOrders` are exactly 1, 2, ..., n in creation order: the
n-th created order received id n. -/
theorem c5_sequential_ids (inputs : List (ReqBody × PostEnv)) (s : ServerState)
    (hready : s.readyState ≠ 1) (hmem : s.memoryOrders = []) :
    (processPosts s inputs).memoryOrders.map (fun o => o._id)
      = List.range' 1 (processPosts s inputs).memoryOrders.length := by
  have general : ∀ (l : List (ReqBody × PostEnv)) (t : ServerState), t.readyState ≠ 1 →
      t.memoryOrders.map (fun o => o._id) = List.range' 1 t.memoryOrders.length →
      (processPosts t l).memoryOrders.map (fun o => o._id)
        = List.range' 1 (processPosts t l).memoryOrders.length := by
    intro l
    induction l with
    | nil => exact fun t _ hinv => hinv
    | cons p rest ih =>
      obtain ⟨b, env⟩ := p
      intro t ht hinv
      rw [processPosts]
      exact ih (postApiOrders t b env).state
        (by rw [postApiOrders_readyState]; exact ht)
        (postApiOrders_ids_step t b env ht hinv)
  exact general inputs s hready (by rw [hmem]; rfl)

/-- C5 witness: two successive valid orders on a fresh in-memory server
receive ids 1 and 2. -/
theorem c5_witness :
    (processPosts initMemState [(exBody, exEnv), (exBody2, exEnv2)]).memoryOrders.map
        (fun o => o._id)
      = List.range' 1
          (processPosts initMemState [(exBody, exEnv), (exBody2, exEnv2)]).memoryOrders.length :=
  c5_sequential_ids [(exBody, exEnv), (exBody2, exEnv2)] initMemState (by decide) rfl

/-- C6: the outcome of the email dispatch is invisible to the client: the
response (status and body) and the resulting store state of
`POST /api/orders` are identical whether `sendOrderEmail` succeeds or
fails, for every request whatsoever. -/
theorem c6_email_failure_never_propagated
    (s : ServerState) (b : ReqBody) (env : PostEnv) :
    (postApiOrders s b { env with emailOk := false }).resp
      = (postApiOrders s b { env with emailOk := true }).resp ∧
    (postApiOrders s b { env with emailOk := false }).state
      = (postApiOrders s b { env with emailOk := true }).state := by
  simp only [postApiOrders]
  constructor <;>
    · split
      · rfl
      · split
        · split <;> rfl
        · rfl

/-- C7: the store is selected by the connection state read at the time of
each request: a valid create writes the document store exactly when
`readyState = 1` at that moment (leaving `memoryOrders` untouched) and the
in-memory list otherwise (leaving the document store untouched), each time
answering 200 against the store currently in use, and a listing reads the
store selected the same way. -/
theorem c7_store_selected_per_request
    (s : ServerState) (b : ReqBody) (env : PostEnv) (c : List CartLine) (mongoReadOk : Bool)
    (hname : truthy b.name = true) (hphone : truthy b.phone = true)
    (haddr : truthy b.address = true)
    (hcart : b.cart = some c) (hlen : 1 ≤ c.length) :
    (s.readyState = 1 → env.mongoWriteOk = true →
      (postApiOrders s b env).resp.status = 200 ∧
      (∃ o, (postApiOrders s b env).state.mongoOrders = s.mongoOrders ++ [o]) ∧
      (postApiOrders s b env).state.memoryOrders = s.memoryOrders) ∧
    (s.readyState ≠ 1 →
      (postApiOrders s b env).resp.status = 200 ∧
      (∃ o, (postApiOrders s b env).state.memoryOrders = s.memoryOrders ++ [o]) ∧
      (postApiOrders s b env).state.mongoOrders = s.mongoOrders) ∧
    (s.readyState = 1 → mongoReadOk = true →
      (getApiOrders s mongoReadOk).1
        = { status := 200, body := GetBody.orders (sortByCreatedAtDesc s.mongoOrders) }) ∧
    (s.readyState ≠ 1 →
      (getApiOrders s mongoReadOk).1
        = { status := 200, body := GetBody.orders (sortByCreatedAtDesc s.memoryOrders) }) := by
  have hc := valid_cond_eq_false b c hname hphone haddr hcart hlen
  refine ⟨?_, ?_, ?_, ?_⟩
  · intro h1 hok
    rw [postApiOrders_mongo_ok s b env hc h1 hok]
    exact ⟨rfl, ⟨_, rfl⟩, rfl⟩
  · intro h1
    rw [postApiOrders_memory s b env hc h1]
    exact ⟨rfl, ⟨_, rfl⟩, rfl⟩
  · intro h1 hok
    rw [getApiOrders_ok s mongoReadOk (fun _ => hok)]
    show ({ status := 200, body := GetBody.orders (sortByCreatedAtDesc (selectedOrders s)) } : GetResult) = _
    rw [selectedOrders, if_pos (by simpa using h1)]
  · intro h1
    rw [getApiOrders_ok s mongoReadOk (fun h => absurd h h1)]
    show ({ status := 200, body := GetBody.orders (sortByCreatedAtDesc (selectedOrders s)) } : GetResult) = _
    rw [selectedOrders, if_neg (by simpa using h1)]

/-- C7 witness: the same valid order posted against a connected state goes
to the document store, and posted against a disconnected state goes to the
in-memory list, answering 200 both times. -/
theorem c7_witness :
    ((postApiOrders initMongoState exBody exEnv).resp.status = 200 ∧
      (∃ o, (postApiOrders initMongoState exBody exEnv).state.mongoOrders
        = initMongoState.mongoOrders ++ [o]) ∧
      (postApiOrders initMongoState exBody exEnv).state.memoryOrders
        = initMongoState.memoryOrders) ∧
    ((postApiOrders initMemState exBody exEnv).resp.status = 200 ∧
      (∃ o, (postApiOrders initMemState exBody exEnv).state.memoryOrders
        = initMemState.memoryOrders ++ [o]) ∧
      (postApiOrders initMemState exBody exEnv).state.mongoOrders
        = initMemState.mongoOrders) := by
  have h1 := c7_store_selected_per_request initMongoState exBody exEnv [exLine] true
    (by decide) (by decide) (by decide) rfl (by decide)
  have h2 := c7_store_selected_per_request initMemState exBody exEnv [exLine] true
    (by decide) (by decide) (by decide) rfl (by decide)
  exact ⟨h1.1 rfl rfl, h2.2.1 (by decide)⟩

/-- C8 counterexample: the claim that a `createdAt` supplied in the request
body is used is false: a request supplying `createdAt = 999`, processed at
creation time 5, stores an order whose `createdAt` is 5, not 999. -/
theorem c8_counterexample :
    exBodyWithCreatedAt.createdAt = some 999 ∧
    (postApiOrders initMemState exBodyWithCreatedAt exEnv).resp.status = 200 ∧
    ¬ ((postApiOrders initMemState exBodyWithCreatedAt exEnv).state.memoryOrders.map
        (fun o => o.createdAt) = [999]) ∧
    (postApiOrders initMemState exBodyWithCreatedAt exEnv).state.memoryOrders.map
        (fun o => o.createdAt) = [exEnv.now] := by
  decide

/-- C8 (amended): every order created by a successful `POST /api/orders`
is stored with `createdAt` equal to the creation time; a `createdAt`
supplied in the request body is ignored (the body `b` is arbitrary here,
so in particular its `createdAt` field never reaches the store). -/
theorem c8_created_at_is_creation_time
    (s : ServerState) (b : ReqBody) (env : PostEnv)
    (h200 : (postApiOrders s b env).resp.status = 200) :
    ∃ o : StoredOrder, o.createdAt = env.now ∧
      (((postApiOrders s b env).state.memoryOrders = s.memoryOrders ++ [o] ∧
        (postApiOrders s b env).state.mongoOrders = s.mongoOrders) ∨
       ((postApiOrders s b env).state.mongoOrders = s.mongoOrders ++ [o] ∧
        (postApiOrders s b env).state.memoryOrders = s.memoryOrders)) := by
  by_cases hval : (!truthy b.name || !truthy b.phone || !truthy b.address
      || b.cart.isNone || (b.cart.getD []).length == 0) = true
  · rw [postApiOrders, if_pos hval] at h200
    simp at h200
  · have hc : (!truthy b.name || !truthy b.phone || !truthy b.address
        || b.cart.isNone || (b.cart.getD []).length == 0) = false := by
      simp only [Bool.not_eq_true] at hval
      exact hval
    by_cases hready : s.readyState = 1
    · by_cases hok : env.mongoWriteOk = true
      · rw [postApiOrders_mongo_ok s b env hc hready hok]
        exact ⟨_, rfl, Or.inr ⟨rfl, rfl⟩⟩
      · rw [postApiOrders_mongo_fail s b env hc hready (by simpa using hok)] at h200
        simp at h200
    · rw [postApiOrders_memory s b env hc hready]
      exact ⟨_, rfl, Or.inl ⟨rfl, rfl⟩⟩

/-- C8 witness: the request that supplied `createdAt = 999` still yields a
stored order stamped with the creation time 5. -/
theorem c8_witness :
    ∃ o : StoredOrder, o.createdAt = exEnv.now ∧
      (((postApiOrders initMemState exBodyWithCreatedAt exEnv).state.memoryOrders
          = initMemState.memoryOrders ++ [o] ∧
        (postApiOrders initMemState exBodyWithCreatedAt exEnv).state.mongoOrders
          = initMemState.mongoOrders) ∨
       ((postApiOrders initMemState exBodyWithCreatedAt exEnv).state.mongoOrders
          = initMemState.mongoOrders ++ [o] ∧
        (postApiOrders initMemState exBodyWithCreatedAt exEnv).state.memoryOrders
          = initMemState.memoryOrders)) :=
  c8_created_at_is_creation_time initMemState exBodyWithCreatedAt exEnv (by decide)

/-- C9: when `MONGO_URL` is absent/falsy, or mentions the loopback address
`127.0.0.1`, or the connection attempt fails, the process does not
terminate: it starts listening and serves with the in-memory store. -/
theorem c9_startup_falls_back_to_memory (url : Option String) (connectOk : Bool)
    (h : truthy url = false ∨ stringIncludes "127.0.0.1" (url.getD "") = true ∨
      connectOk = false) :
    start url connectOk
      = { terminated := false, listening := true, usesMemory := true } := by
  rw [start]
  by_cases hfirst : (!truthy url || stringIncludes "127.0.0.1" (url.getD "")) = true
  · rw [if_pos hfirst]
  · rcases h with h | h | h
    · exact absurd (by simp [h]) hfirst
    · exact absurd (by simp [h]) hfirst
    · rw [if_neg (by simpa using hfirst), if_neg (by simp [h])]

/-- C9 witness: with no `MONGO_URL` configured the process starts, listens
and uses the in-memory store. -/
theorem c9_witness :
    start none true = { terminated := false, listening := true, usesMemory := true } :=
  c9_startup_falls_back_to_memory none true (Or.inl rfl)

/-- C10: stored orders are immutable: `GET /api/orders` returns the state
exactly as it found it (the in-memory path sorts a copy), and
`POST /api/orders` can only append — after any request each store equals
its old value extended by at most one new order, so no previously stored
order is ever modified, reordered or removed. -/
theorem c10_orders_immutable
    (s : ServerState) (b : ReqBody) (env : PostEnv) (mongoReadOk : Bool) :
    (getApiOrders s mongoReadOk).2 = s ∧
    ∃ dmem dmongo : List StoredOrder,
      (postApiOrders s b env).state.memoryOrders = s.memoryOrders ++ dmem ∧
      (postApiOrders s b env).state.mongoOrders = s.mongoOrders ++ dmongo ∧
      dmem.length + dmongo.length ≤ 1 := by
  constructor
  · rw [getApiOrders]
    split
    · split <;> rfl
    · rfl
  · rw [postApiOrders]
    split
    · exact ⟨[], [], by simp, by simp, by simp⟩
    · split
      · split
        · exact ⟨[], [_], by simp, rfl, by simp⟩
        · exact ⟨[], [], by simp, by simp, by simp⟩
      · exact ⟨[_], [], rfl, by simp, by simp⟩

end AnvisTea
